import Mathlib

/-!
Verification of `src/utils/dish_generator.py`.

The Python module is embedded shallowly:

* the numpy grid is a function `Nat → Nat → Char` (cell labels are single
  characters);
* a Python `slice(start, stop)` is a `SliceRange`; the pair
  `rooms['K'] = (row_slice, col_slice)` is passed as the two ranges directly;
* `random.choice(preferences)` outcomes are an explicit stream
  `choices : Nat → String` (one entry per loop index); `random.shuffle` calls
  are explicit functions constrained in the theorems to return permutations;
* the Python dict `person_preferences` is an association list in insertion
  order (keys are distinct by construction, so `List.lookup` models
  `dict.get`);
* the function is pure: `grid.copy()` is modelled by starting the placement
  from the input grid value, so immutability of the caller's grid is inherent
  to the embedding.
-/

/-- A Python `slice(start, stop)` (half-open). -/
structure SliceRange where
  start : Nat
  stop : Nat
deriving DecidableEq

/-- One step of the preference-assignment loop (body of
`for i in range(num_people)` in `generate_dishes_and_preferences`):
for `i < num_people // 2` take a random choice, otherwise recompute the
running counts (`remaining_vegan`, `remaining_non_veg`, inlined here) and
force the missing label ('vegan' checked first). -/
def prefStep (numPeople : Nat) (choices : Nat → String)
    (prefs : List (Nat × String)) (i : Nat) : List (Nat × String) :=
  prefs ++ [(i + 1,
    if i < numPeople / 2 then
      choices i
    else if (prefs.map Prod.snd).count "vegan" = 0 then "vegan"
    else if (prefs.map Prod.snd).count "non-vegetarian" = 0 then "non-vegetarian"
    else choices i)]

/-- The preference dict after the first `i` iterations of the loop. -/
def assignPrefsAux (numPeople : Nat) (choices : Nat → String) :
    Nat → List (Nat × String)
  | 0 => []
  | i + 1 => prefStep numPeople choices (assignPrefsAux numPeople choices i) i

/-- The `person_preferences` dict built by `generate_dishes_and_preferences`
for `num_people` occupants, given the stream of `random.choice` outcomes. -/
def personPreferences (numPeople : Nat) (choices : Nat → String) :
    List (Nat × String) :=
  assignPrefsAux numPeople choices numPeople

/-- The scan of the kitchen region
(`for row in range(kitchen_rows.start, kitchen_rows.stop): for col in ...`)
keeping cells that are not occupied, not in `['W', 'd', 'k', 'F']`, and
labelled `'K'`; row-major order as in the source. -/
def validKitchenPositions (grid : Nat → Nat → Char)
    (kitchenRows kitchenCols : SliceRange)
    (occupied : List (Nat × Nat)) : List (Nat × Nat) :=
  ((List.range' kitchenRows.start (kitchenRows.stop - kitchenRows.start)).flatMap
    (fun row =>
      (List.range' kitchenCols.start (kitchenCols.stop - kitchenCols.start)).map
        (fun col => (row, col)))).filter
    (fun rc =>
      decide ((rc.1, rc.2) ∉ occupied) &&
      decide (grid rc.1 rc.2 ∉ (['W', 'd', 'k', 'F'] : List Char)) &&
      decide (grid rc.1 rc.2 = 'K'))

/-- The dish-placement loop (`for i, dish_type in enumerate(dishes_to_place)`):
while positions remain, write the dish character into the grid copy and record
`(row, col, dish_type_name)`; once positions run out the remaining dishes are
skipped (the source only prints a notice). -/
def placeLoop : List Char → List (Nat × Nat) → (Nat → Nat → Char) →
    (Nat → Nat → Char) × List (Nat × Nat × String)
  | [], _, g => (g, [])
  | _ :: ds, [], g => placeLoop ds [] g
  | d :: ds, (r, c) :: ps, g =>
      let g' : Nat → Nat → Char := fun r' c' => if r' = r ∧ c' = c then d else g r' c'
      let name := if d = 'V' then "vegan" else "non-vegetarian"
      let rest := placeLoop ds ps g'
      (rest.1, (r, c, name) :: rest.2)

/-- Shallow embedding of `generate_dishes_and_preferences`.
`shufflePos` and `shuffleDish` stand for the two `random.shuffle` calls and are
constrained to permutations in the theorems; `choices` is the stream of
`random.choice(preferences)` outcomes. -/
def generate_dishes_and_preferences (grid : Nat → Nat → Char)
    (kitchenRows kitchenCols : SliceRange)
    (peoplePositions : List (Nat × Nat)) (occupiedPositions : List (Nat × Nat))
    (choices : Nat → String)
    (shufflePos : List (Nat × Nat) → List (Nat × Nat))
    (shuffleDish : List Char → List Char) :
    (Nat → Nat → Char) × List (Nat × String) × List (Nat × Nat × String) :=
  let numPeople := peoplePositions.length
  let person_preferences := personPreferences numPeople choices
  let shuffledValid :=
    shufflePos (validKitchenPositions grid kitchenRows kitchenCols occupiedPositions)
  let veganCount := (person_preferences.map Prod.snd).count "vegan"
  let nonVegCount := (person_preferences.map Prod.snd).count "non-vegetarian"
  let dishesToPlace :=
    shuffleDish (List.replicate veganCount 'V' ++ List.replicate nonVegCount 'N')
  let placed := placeLoop dishesToPlace shuffledValid grid
  (placed.1, person_preferences, placed.2)

/-- `get_person_dietary_preference`: `person_preferences.get(person_number, 'unknown')`. -/
def get_person_dietary_preference (person_number : Nat)
    (person_preferences : List (Nat × String)) : String :=
  (person_preferences.lookup person_number).getD "unknown"

/-- `find_dishes_by_type`: the `(row, col)` of entries whose type matches. -/
def find_dishes_by_type (dish_positions : List (Nat × Nat × String))
    (dish_type : String) : List (Nat × Nat) :=
  (dish_positions.filter (fun t => t.2.2 = dish_type)).map (fun t => (t.1, t.2.1))

/-- The dict returned by `get_dish_assignment_summary`. -/
structure DishSummary where
  total_people : Nat
  vegan_people : List Nat
  non_vegetarian_people : List Nat
  vegan_people_count : Nat
  non_vegetarian_people_count : Nat
  vegan_dishes_positions : List (Nat × Nat)
  non_vegetarian_dishes_positions : List (Nat × Nat)
  vegan_dishes_count : Nat
  non_vegetarian_dishes_count : Nat
deriving DecidableEq

/-- `get_dish_assignment_summary`. -/
def get_dish_assignment_summary (person_preferences : List (Nat × String))
    (dish_positions : List (Nat × Nat × String)) : DishSummary :=
  let vegan_people :=
    (person_preferences.filter (fun p => p.2 = "vegan")).map Prod.fst
  let non_veg_people :=
    (person_preferences.filter (fun p => p.2 = "non-vegetarian")).map Prod.fst
  let vegan_dishes := find_dishes_by_type dish_positions "vegan"
  let non_veg_dishes := find_dishes_by_type dish_positions "non-vegetarian"
  { total_people := person_preferences.length
    vegan_people := vegan_people
    non_vegetarian_people := non_veg_people
    vegan_people_count := vegan_people.length
    non_vegetarian_people_count := non_veg_people.length
    vegan_dishes_positions := vegan_dishes
    non_vegetarian_dishes_positions := non_veg_dishes
    vegan_dishes_count := vegan_dishes.length
    non_vegetarian_dishes_count := non_veg_dishes.length }

/-! ### Allocator lemmas -/

lemma assignPrefsAux_map_fst (n : Nat) (ch : Nat → String) :
    ∀ i, (assignPrefsAux n ch i).map Prod.fst = List.range' 1 i
  | 0 => rfl
  | i + 1 => by
      rw [assignPrefsAux, prefStep, List.range'_1_concat]
      simp [assignPrefsAux_map_fst n ch i, Nat.add_comm]

lemma assignPrefsAux_length (n : Nat) (ch : Nat → String) (i : Nat) :
    (assignPrefsAux n ch i).length = i := by
  have h := congrArg List.length (assignPrefsAux_map_fst n ch i)
  simpa using h

lemma assignPrefsAux_values (n : Nat) (ch : Nat → String)
    (hch : ∀ k, ch k = "vegan" ∨ ch k = "non-vegetarian") :
    ∀ i, ∀ v ∈ (assignPrefsAux n ch i).map Prod.snd,
      v = "vegan" ∨ v = "non-vegetarian"
  | 0 => by simp [assignPrefsAux]
  | i + 1 => by
      intro v hv
      rw [assignPrefsAux, prefStep] at hv
      simp only [List.map_append, List.mem_append, List.map_cons, List.map_nil,
        List.mem_singleton] at hv
      rcases hv with hv | hv
      · exact assignPrefsAux_values n ch hch i v hv
      · subst hv
        split
        · exact hch i
        · split
          · exact Or.inl rfl
          · split
            · exact Or.inr rfl
            · exact hch i

lemma count_two_eq_length {l : List String} {a b : String} (hab : a ≠ b)
    (h : ∀ v ∈ l, v = a ∨ v = b) : l.count a + l.count b = l.length := by
  induction l with
  | nil => simp
  | cons x xs ih =>
      have hxs : ∀ v ∈ xs, v = a ∨ v = b := fun v hv => h v (List.mem_cons_of_mem x hv)
      have hcnt := ih hxs
      rcases h x (List.mem_cons_self x xs) with hx | hx
      · rw [hx, List.count_cons_self, List.count_cons_of_ne (Ne.symm hab)]
        simp
        omega
      · rw [hx, List.count_cons_self, List.count_cons_of_ne hab]
        simp
        omega

lemma prefStep_both_pos (n : Nat) (ch : Nat → String)
    (hch : ∀ k, ch k = "vegan" ∨ ch k = "non-vegetarian") (i : Nat)
    (hhalf : n / 2 ≤ i) (hpos : 1 ≤ i) :
    0 < ((assignPrefsAux n ch (i + 1)).map Prod.snd).count "vegan" ∧
    0 < ((assignPrefsAux n ch (i + 1)).map Prod.snd).count "non-vegetarian" := by
  have hne : ("vegan" : String) ≠ "non-vegetarian" := by decide
  have hsum :
      ((assignPrefsAux n ch i).map Prod.snd).count "vegan" +
        ((assignPrefsAux n ch i).map Prod.snd).count "non-vegetarian" = i := by
    rw [count_two_eq_length hne (assignPrefsAux_values n ch hch i)]
    simp [assignPrefsAux_length]
  have hcv1 : (["vegan"] : List String).count "vegan" = 1 := by decide
  have hcv2 : (["vegan"] : List String).count "non-vegetarian" = 0 := by decide
  have hcn1 : (["non-vegetarian"] : List String).count "vegan" = 0 := by decide
  have hcn2 : (["non-vegetarian"] : List String).count "non-vegetarian" = 1 := by decide
  have hnotlt : ¬ i < n / 2 := Nat.not_lt.mpr hhalf
  rw [assignPrefsAux, prefStep, if_neg hnotlt]
  simp only [List.map_append, List.map_cons, List.map_nil, List.count_append]
  by_cases hv : ((assignPrefsAux n ch i).map Prod.snd).count "vegan" = 0
  · rw [if_pos hv, hcv1, hcv2]
    omega
  · rw [if_neg hv]
    by_cases hn : ((assignPrefsAux n ch i).map Prod.snd).count "non-vegetarian" = 0
    · rw [if_pos hn, hcn1, hcn2]
      omega
    · rw [if_neg hn]
      constructor <;> omega

lemma personPreferences_both_pos (n : Nat) (ch : Nat → String)
    (hch : ∀ k, ch k = "vegan" ∨ ch k = "non-vegetarian") (hn : 2 ≤ n) :
    "vegan" ∈ (personPreferences n ch).map Prod.snd ∧
    "non-vegetarian" ∈ (personPreferences n ch).map Prod.snd := by
  have h := prefStep_both_pos n ch hch (n - 1) (by omega) (by omega)
  have heq : n - 1 + 1 = n := by omega
  rw [heq] at h
  exact ⟨List.count_pos_iff.mp h.1, List.count_pos_iff.mp h.2⟩

lemma personPreferences_one (ch : Nat → String) :
    personPreferences 1 ch = [(1, "vegan")] := rfl

/-! ### Placement-loop lemmas -/

/-- The coordinates recorded by the placement loop are exactly the first
`ds.length` shuffled positions, in order. -/
lemma placeLoop_coords (ds : List Char) :
    ∀ (ps : List (Nat × Nat)) (g : Nat → Nat → Char),
      (placeLoop ds ps g).2.map (fun t => (t.1, t.2.1)) = ps.take ds.length := by
  induction ds with
  | nil => intro ps g; simp [placeLoop]
  | cons d ds ih =>
      intro ps g
      cases ps with
      | nil => simpa [placeLoop] using ih [] g
      | cons p ps =>
          obtain ⟨r, c⟩ := p
          simp [placeLoop, ih]

/-- The dish names recorded by the placement loop are the first
`ps.length` shuffled dish characters, rendered as in the source. -/
lemma placeLoop_names (ds : List Char) :
    ∀ (ps : List (Nat × Nat)) (g : Nat → Nat → Char),
      (placeLoop ds ps g).2.map (fun t => t.2.2) =
        (ds.take ps.length).map
          (fun d => if d = 'V' then "vegan" else "non-vegetarian") := by
  induction ds with
  | nil => intro ps g; simp [placeLoop]
  | cons d ds ih =>
      intro ps g
      cases ps with
      | nil => simpa [placeLoop] using ih [] g
      | cons p ps =>
          obtain ⟨r, c⟩ := p
          simp [placeLoop, ih]

lemma placeLoop_length (ds : List Char) (ps : List (Nat × Nat))
    (g : Nat → Nat → Char) :
    (placeLoop ds ps g).2.length = min ds.length ps.length := by
  have h := congrArg List.length (placeLoop_coords ds ps g)
  simpa [Nat.min_comm] using h

/-- Cells not recorded in the placement list keep their original label. -/
lemma placeLoop_frame (ds : List Char) :
    ∀ (ps : List (Nat × Nat)) (g : Nat → Nat → Char) (r c : Nat),
      (r, c) ∉ (placeLoop ds ps g).2.map (fun t => (t.1, t.2.1)) →
      (placeLoop ds ps g).1 r c = g r c := by
  induction ds with
  | nil => intro ps g r c _; simp [placeLoop]
  | cons d ds ih =>
      intro ps g r c hnot
      cases ps with
      | nil => exact ih [] g r c hnot
      | cons p ps =>
          obtain ⟨r0, c0⟩ := p
          simp only [placeLoop, List.map_cons, List.mem_cons, not_or] at hnot ⊢
          obtain ⟨hne, hnot⟩ := hnot
          rw [ih ps _ r c hnot]
          have : ¬(r = r0 ∧ c = c0) := by
            intro hrc
            exact hne (by rw [hrc.1, hrc.2])
          simp [this]

/-- Each recorded placement bears its dish character in the final grid,
and its recorded name is one of the two labels. -/
lemma placeLoop_placed (ds : List Char) :
    ∀ (ps : List (Nat × Nat)) (g : Nat → Nat → Char), ps.Nodup →
      (∀ x ∈ ds, x = 'V' ∨ x = 'N') →
      ∀ r c s, (r, c, s) ∈ (placeLoop ds ps g).2 →
        (placeLoop ds ps g).1 r c = (if s = "vegan" then 'V' else 'N') ∧
          (s = "vegan" ∨ s = "non-vegetarian") := by
  induction ds with
  | nil => intro ps g _ _ r c s hmem; simp [placeLoop] at hmem
  | cons d ds ih =>
      intro ps g hnd hds r c s hmem
      have hds' : ∀ x ∈ ds, x = 'V' ∨ x = 'N' :=
        fun x hx => hds x (List.mem_cons_of_mem d hx)
      cases ps with
      | nil =>
          simp only [placeLoop] at hmem ⊢
          exact ih [] g List.nodup_nil hds' r c s hmem
      | cons p ps =>
          obtain ⟨r0, c0⟩ := p
          have hnd' : ps.Nodup := (List.nodup_cons.mp hnd).2
          have hp0 : (r0, c0) ∉ ps := (List.nodup_cons.mp hnd).1
          simp only [placeLoop, List.mem_cons] at hmem ⊢
          rcases hmem with hmem | hmem
          · simp only [Prod.mk.injEq] at hmem
            obtain ⟨h1, h2, h3⟩ := hmem
            subst h1
            subst h2
            subst h3
            have hcoords :
                (r, c) ∉ (placeLoop ds ps
                  (fun r' c' => if r' = r ∧ c' = c then d else g r' c')).2.map
                    (fun t => (t.1, t.2.1)) := by
              rw [placeLoop_coords]
              intro hmem0
              exact hp0 (List.take_subset _ _ hmem0)
            have hframe := placeLoop_frame ds ps
              (fun r' c' => if r' = r ∧ c' = c then d else g r' c') r c hcoords
            rw [hframe]
            rcases hds d (List.mem_cons_self d ds) with hd | hd <;> subst hd <;>
              simp
          · have := ih ps
              (fun r' c' => if r' = r0 ∧ c' = c0 then d else g r' c') hnd' hds'
              r c s hmem
            exact this

/-! ### Scanner lemmas -/

lemma validKitchenPositions_mem (grid : Nat → Nat → Char)
    (kitchenRows kitchenCols : SliceRange) (occ : List (Nat × Nat)) (r c : Nat)
    (h : (r, c) ∈ validKitchenPositions grid kitchenRows kitchenCols occ) :
    kitchenRows.start ≤ r ∧ r < kitchenRows.stop ∧
    kitchenCols.start ≤ c ∧ c < kitchenCols.stop ∧
    (r, c) ∉ occ ∧ grid r c = 'K' := by
  unfold validKitchenPositions at h
  rw [List.mem_filter] at h
  obtain ⟨hmem, hcond⟩ := h
  simp only [List.mem_flatMap, List.mem_map] at hmem
  obtain ⟨row, hrow, col, hcol, heq⟩ := hmem
  rw [List.mem_range'_1] at hrow hcol
  injection heq with h1 h2
  subst h1
  subst h2
  simp only [Bool.and_eq_true, decide_eq_true_eq] at hcond
  exact ⟨hrow.1, by omega, hcol.1, by omega, hcond.1.1, hcond.2⟩

lemma flatMap_pairs_nodup (rows cols : List Nat) (hr : rows.Nodup)
    (hc : cols.Nodup) :
    (rows.flatMap (fun row => cols.map (fun col => (row, col)))).Nodup := by
  rw [List.nodup_flatMap]
  refine ⟨fun row _ => hc.map (fun _ _ hab => congrArg Prod.snd hab), ?_⟩
  refine hr.imp ?_
  intro a b hab x hxa hxb
  simp only [List.mem_map] at hxa hxb
  obtain ⟨c1, _, rfl⟩ := hxa
  obtain ⟨c2, _, heq⟩ := hxb
  exact hab (congrArg Prod.fst heq).symm

lemma validKitchenPositions_nodup (grid : Nat → Nat → Char)
    (kitchenRows kitchenCols : SliceRange) (occ : List (Nat × Nat)) :
    (validKitchenPositions grid kitchenRows kitchenCols occ).Nodup := by
  unfold validKitchenPositions
  exact List.Nodup.filter _
    (flatMap_pairs_nodup _ _ (List.nodup_range' _ _) (List.nodup_range' _ _))

/-! ### Dish-name counting lemmas -/

lemma count_vegan_map_names (l : List Char) :
    (l.map (fun d => if d = 'V' then "vegan" else "non-vegetarian")).count
        "vegan" = l.count 'V' := by
  induction l with
  | nil => rfl
  | cons x xs ih =>
      by_cases hx : x = 'V'
      · subst hx
        rw [List.map_cons, if_pos rfl, List.count_cons_self, List.count_cons_self, ih]
      · rw [List.map_cons, if_neg hx, List.count_cons_of_ne (by decide),
          List.count_cons_of_ne (Ne.symm hx), ih]

lemma count_nonveg_map_names (l : List Char) (h : ∀ x ∈ l, x = 'V' ∨ x = 'N') :
    (l.map (fun d => if d = 'V' then "vegan" else "non-vegetarian")).count
        "non-vegetarian" = l.count 'N' := by
  induction l with
  | nil => rfl
  | cons x xs ih =>
      have hxs : ∀ y ∈ xs, y = 'V' ∨ y = 'N' :=
        fun y hy => h y (List.mem_cons_of_mem x hy)
      rcases h x (List.mem_cons_self x xs) with hx | hx <;> subst hx
      · rw [List.map_cons, if_pos rfl, List.count_cons_of_ne (by decide),
          List.count_cons_of_ne (by decide), ih hxs]
      · rw [List.map_cons, if_neg (by decide), List.count_cons_self,
          List.count_cons_self, ih hxs]

lemma mem_dishes_to_place {a b : Nat} {x : Char}
    (hx : x ∈ List.replicate a 'V' ++ List.replicate b 'N') :
    x = 'V' ∨ x = 'N' := by
  rw [List.mem_append] at hx
  rcases hx with hx | hx
  · exact Or.inl (List.eq_of_mem_replicate hx)
  · exact Or.inr (List.eq_of_mem_replicate hx)

/-! ### Unfolding the entry point -/

lemma generate_prefs (grid : Nat → Nat → Char)
    (kitchenRows kitchenCols : SliceRange)
    (peoplePositions occupiedPositions : List (Nat × Nat))
    (choices : Nat → String)
    (shufflePos : List (Nat × Nat) → List (Nat × Nat))
    (shuffleDish : List Char → List Char) :
    (generate_dishes_and_preferences grid kitchenRows kitchenCols peoplePositions
      occupiedPositions choices shufflePos shuffleDish).2.1 =
      personPreferences peoplePositions.length choices := rfl

lemma generate_placed (grid : Nat → Nat → Char)
    (kitchenRows kitchenCols : SliceRange)
    (peoplePositions occupiedPositions : List (Nat × Nat))
    (choices : Nat → String)
    (shufflePos : List (Nat × Nat) → List (Nat × Nat))
    (shuffleDish : List Char → List Char) :
    (generate_dishes_and_preferences grid kitchenRows kitchenCols peoplePositions
      occupiedPositions choices shufflePos shuffleDish).1 =
      (placeLoop
        (shuffleDish
          (List.replicate
              (((personPreferences peoplePositions.length choices).map
                Prod.snd).count "vegan") 'V' ++
            List.replicate
              (((personPreferences peoplePositions.length choices).map
                Prod.snd).count "non-vegetarian") 'N'))
        (shufflePos
          (validKitchenPositions grid kitchenRows kitchenCols occupiedPositions))
        grid).1 ∧
    (generate_dishes_and_preferences grid kitchenRows kitchenCols peoplePositions
      occupiedPositions choices shufflePos shuffleDish).2.2 =
      (placeLoop
        (shuffleDish
          (List.replicate
              (((personPreferences peoplePositions.length choices).map
                Prod.snd).count "vegan") 'V' ++
            List.replicate
              (((personPreferences peoplePositions.length choices).map
                Prod.snd).count "non-vegetarian") 'N'))
        (shufflePos
          (validKitchenPositions grid kitchenRows kitchenCols occupiedPositions))
        grid).2 :=
  ⟨rfl, rfl⟩

lemma personPreferences_length (n : Nat) (ch : Nat → String) :
    (personPreferences n ch).length = n :=
  assignPrefsAux_length n ch n

lemma personPreferences_count_sum (n : Nat) (ch : Nat → String)
    (hch : ∀ k, ch k = "vegan" ∨ ch k = "non-vegetarian") :
    ((personPreferences n ch).map Prod.snd).count "vegan" +
      ((personPreferences n ch).map Prod.snd).count "non-vegetarian" = n := by
  unfold personPreferences
  rw [count_two_eq_length (by decide) (assignPrefsAux_values n ch hch n)]
  simp [assignPrefsAux_length]

/-! ### Lookup lemmas -/

lemma lookup_eq_none_of_not_mem {k : Nat} {l : List (Nat × String)}
    (h : k ∉ l.map Prod.fst) : l.lookup k = none := by
  induction l with
  | nil => rfl
  | cons p l ih =>
      obtain ⟨k', v'⟩ := p
      simp only [List.map_cons, List.mem_cons, not_or] at h
      have hbeq : (k == k') = false := beq_eq_false_iff_ne.mpr h.1
      rw [List.lookup_cons, hbeq]
      exact ih h.2

lemma lookup_eq_some_of_mem {k : Nat} {v : String} {l : List (Nat × String)}
    (hnd : (l.map Prod.fst).Nodup) (hmem : (k, v) ∈ l) : l.lookup k = some v := by
  induction l with
  | nil => simp at hmem
  | cons p l ih =>
      obtain ⟨k', v'⟩ := p
      rw [List.mem_cons] at hmem
      rw [List.map_cons] at hnd
      rcases hmem with hmem | hmem
      · injection hmem with h1 h2
        subst h1
        subst h2
        exact List.lookup_cons_self
      · have hkmem : k ∈ l.map Prod.fst := List.mem_map_of_mem Prod.fst hmem
        have hk : (k == k') = false := by
          refine beq_eq_false_iff_ne.mpr ?_
          intro hkk
          rw [hkk] at hkmem
          exact (List.nodup_cons.mp hnd).1 hkmem
        rw [List.lookup_cons, hk]
        exact ih (List.nodup_cons.mp hnd).2 hmem

/-! ### Summary counting lemma -/

lemma length_filter_pair {α : Type} (l : List α) (f : α → String)
    (h : ∀ x ∈ l, f x = "vegan" ∨ f x = "non-vegetarian") :
    (l.filter (fun x => f x = "vegan")).length +
      (l.filter (fun x => f x = "non-vegetarian")).length = l.length := by
  induction l with
  | nil => rfl
  | cons x xs ih =>
      have hxs : ∀ y ∈ xs, f y = "vegan" ∨ f y = "non-vegetarian" :=
        fun y hy => h y (List.mem_cons_of_mem x hy)
      rcases h x (List.mem_cons_self x xs) with hx | hx
      · rw [List.filter_cons, List.filter_cons, if_pos (by simp [hx]),
          if_neg (by simp [hx]), List.length_cons, List.length_cons]
        have := ih hxs
        omega
      · rw [List.filter_cons, List.filter_cons, if_neg (by simp [hx]),
          if_pos (by simp [hx]), List.length_cons, List.length_cons]
        have := ih hxs
        omega

/-- Counting facts about a prefix of a shuffled `['V'] * a ++ ['N'] * b`
multiset, rendered into dish names as in the source. -/
lemma take_count_facts (ds : List Char) (a b n : Nat)
    (hperm : List.Perm ds (List.replicate a 'V' ++ List.replicate b 'N')) :
    ((ds.take n).map
        (fun d => if d = 'V' then "vegan" else "non-vegetarian")).count
        "vegan" ≤ a ∧
    ((ds.take n).map
        (fun d => if d = 'V' then "vegan" else "non-vegetarian")).count
        "non-vegetarian" ≤ b ∧
    (a + b ≤ n →
      ((ds.take n).map
          (fun d => if d = 'V' then "vegan" else "non-vegetarian")).count
          "vegan" = a ∧
      ((ds.take n).map
          (fun d => if d = 'V' then "vegan" else "non-vegetarian")).count
          "non-vegetarian" = b) := by
  have hmem : ∀ x ∈ ds.take n, x = 'V' ∨ x = 'N' := fun x hx =>
    mem_dishes_to_place (hperm.mem_iff.mp (List.take_subset n ds hx))
  have hVN : (List.replicate b 'N').count 'V' = 0 :=
    List.count_eq_zero.mpr
      (fun hmem0 => absurd (List.eq_of_mem_replicate hmem0) (by decide))
  have hNV : (List.replicate a 'V').count 'N' = 0 :=
    List.count_eq_zero.mpr
      (fun hmem0 => absurd (List.eq_of_mem_replicate hmem0) (by decide))
  have hVds : ds.count 'V' = a := by
    rw [hperm.count_eq, List.count_append, List.count_replicate_self, hVN]
    omega
  have hNds : ds.count 'N' = b := by
    rw [hperm.count_eq, List.count_append, List.count_replicate_self, hNV]
    omega
  have hlen : ds.length = a + b := by
    rw [hperm.length_eq, List.length_append, List.length_replicate,
      List.length_replicate]
  rw [count_vegan_map_names, count_nonveg_map_names _ hmem]
  refine ⟨?_, ?_, ?_⟩
  · exact hVds ▸ (List.take_sublist n ds).count_le 'V'
  · exact hNds ▸ (List.take_sublist n ds).count_le 'N'
  · intro hn
    rw [List.take_of_length_le (by omega)]
    exact ⟨hVds, hNds⟩

/-! ### Claim theorems -/

/-- C1: for every occupant list of length `N ≥ 2` and every outcome of the
random choices, the preference map returned by
`generate_dishes_and_preferences` contains both labels 'vegan' and
'non-vegetarian' at least once. -/
theorem spec_C1_pref_map_has_both_labels
    (grid : Nat → Nat → Char) (kitchenRows kitchenCols : SliceRange)
    (peoplePositions occupiedPositions : List (Nat × Nat))
    (choices : Nat → String)
    (shufflePos : List (Nat × Nat) → List (Nat × Nat))
    (shuffleDish : List Char → List Char)
    (hch : ∀ k, choices k = "vegan" ∨ choices k = "non-vegetarian")
    (hN : 2 ≤ peoplePositions.length) :
    "vegan" ∈ ((generate_dishes_and_preferences grid kitchenRows kitchenCols
        peoplePositions occupiedPositions choices shufflePos
        shuffleDish).2.1.map Prod.snd) ∧
    "non-vegetarian" ∈ ((generate_dishes_and_preferences grid kitchenRows
        kitchenCols peoplePositions occupiedPositions choices shufflePos
        shuffleDish).2.1.map Prod.snd) := by
  rw [generate_prefs]
  exact personPreferences_both_pos peoplePositions.length choices hch hN

/-- Witness for C1: a 2-person household, all-kitchen grid, identity
shuffles, constant 'vegan' choice stream. -/
theorem spec_C1_pref_map_has_both_labels_witness :
    "vegan" ∈ ((generate_dishes_and_preferences (fun _ _ => 'K') ⟨0, 2⟩ ⟨0, 1⟩
        [(5, 5), (6, 6)] [] (fun _ => "vegan") id id).2.1.map Prod.snd) ∧
    "non-vegetarian" ∈ ((generate_dishes_and_preferences (fun _ _ => 'K')
        ⟨0, 2⟩ ⟨0, 1⟩ [(5, 5), (6, 6)] [] (fun _ => "vegan") id
        id).2.1.map Prod.snd) :=
  spec_C1_pref_map_has_both_labels _ _ _ _ _ _ _ _
    (fun _ => Or.inl rfl) (by decide)

/-- C2: every `(row, col)` in the returned dish placement list lies in the
kitchen region's half-open ranges, is not in the occupied set, and carried
the kitchen-floor label 'K' in the input grid. -/
theorem spec_C2_placements_valid
    (grid : Nat → Nat → Char) (kitchenRows kitchenCols : SliceRange)
    (peoplePositions occupiedPositions : List (Nat × Nat))
    (choices : Nat → String)
    (shufflePos : List (Nat × Nat) → List (Nat × Nat))
    (shuffleDish : List Char → List Char) (r c : Nat) (s : String)
    (hpos : ∀ l, List.Perm (shufflePos l) l)
    (hmem : (r, c, s) ∈ (generate_dishes_and_preferences grid kitchenRows
      kitchenCols peoplePositions occupiedPositions choices shufflePos
      shuffleDish).2.2) :
    kitchenRows.start ≤ r ∧ r < kitchenRows.stop ∧
    kitchenCols.start ≤ c ∧ c < kitchenCols.stop ∧
    (r, c) ∉ occupiedPositions ∧ grid r c = 'K' := by
  rw [(generate_placed grid kitchenRows kitchenCols peoplePositions
    occupiedPositions choices shufflePos shuffleDish).2] at hmem
  have hc := List.mem_map_of_mem (fun t => (t.1, t.2.1)) hmem
  rw [placeLoop_coords] at hc
  have hsh := List.take_subset _ _ hc
  have hvalid := (hpos _).mem_iff.mp hsh
  exact validKitchenPositions_mem grid kitchenRows kitchenCols
    occupiedPositions r c hvalid

/-- Witness for C2: the first placed dish of the concrete run. -/
theorem spec_C2_placements_valid_witness :
    (0 : Nat) ≤ 0 ∧ (0 : Nat) < 2 ∧ (0 : Nat) ≤ 0 ∧ (0 : Nat) < 1 ∧
    ((0 : Nat), (0 : Nat)) ∉ ([] : List (Nat × Nat)) ∧
    (fun _ _ => 'K') 0 0 = 'K' :=
  spec_C2_placements_valid (fun _ _ => 'K') ⟨0, 2⟩ ⟨0, 1⟩ [(5, 5), (6, 6)] []
    (fun _ => "vegan") id id 0 0 "vegan" (fun l => List.Perm.refl l)
    (by decide)

/-- C3: the returned dish placement list has length `min M N`, where `M` is
the number of eligible kitchen cells and `N` the number of occupants; in
particular the function returns normally when `M < N`. -/
theorem spec_C3_placement_length_min
    (grid : Nat → Nat → Char) (kitchenRows kitchenCols : SliceRange)
    (peoplePositions occupiedPositions : List (Nat × Nat))
    (choices : Nat → String)
    (shufflePos : List (Nat × Nat) → List (Nat × Nat))
    (shuffleDish : List Char → List Char)
    (hch : ∀ k, choices k = "vegan" ∨ choices k = "non-vegetarian")
    (hpos : ∀ l, List.Perm (shufflePos l) l)
    (hdish : ∀ l, List.Perm (shuffleDish l) l) :
    (generate_dishes_and_preferences grid kitchenRows kitchenCols
        peoplePositions occupiedPositions choices shufflePos
        shuffleDish).2.2.length =
      min (validKitchenPositions grid kitchenRows kitchenCols
          occupiedPositions).length
        peoplePositions.length := by
  rw [(generate_placed grid kitchenRows kitchenCols peoplePositions
    occupiedPositions choices shufflePos shuffleDish).2, placeLoop_length]
  rw [(hdish _).length_eq, (hpos _).length_eq]
  rw [List.length_append, List.length_replicate, List.length_replicate]
  rw [personPreferences_count_sum peoplePositions.length choices hch]
  exact Nat.min_comm _ _

/-- Witness for C3: 5 occupants but only 2 eligible cells give a list of
length 2 and no failure. -/
theorem spec_C3_placement_length_min_witness :
    (generate_dishes_and_preferences (fun _ _ => 'K') ⟨0, 2⟩ ⟨0, 1⟩
        [(5, 5), (6, 6), (7, 7), (8, 8), (9, 9)] [] (fun _ => "vegan") id
        id).2.2.length =
      min (validKitchenPositions (fun _ _ => 'K') ⟨0, 2⟩ ⟨0, 1⟩ []).length
        [(5, 5), (6, 6), (7, 7), (8, 8), (9, 9)].length :=
  spec_C3_placement_length_min (fun _ _ => 'K') ⟨0, 2⟩ ⟨0, 1⟩
    [(5, 5), (6, 6), (7, 7), (8, 8), (9, 9)] [] (fun _ => "vegan") id id
    (fun _ => Or.inl rfl) (fun l => List.Perm.refl l)
    (fun l => List.Perm.refl l)

/-- C4: the returned grid bears the dish character ('V' for a 'vegan' entry,
'N' for a 'non-vegetarian' entry) at every placed coordinate and equals the
input grid everywhere else.  The embedding is pure, so the caller's input
grid value is unchanged by construction, mirroring `grid.copy()` in the
source. -/
theorem spec_C4_grid_frame_and_dish_chars
    (grid : Nat → Nat → Char) (kitchenRows kitchenCols : SliceRange)
    (peoplePositions occupiedPositions : List (Nat × Nat))
    (choices : Nat → String)
    (shufflePos : List (Nat × Nat) → List (Nat × Nat))
    (shuffleDish : List Char → List Char) (r c : Nat) (s : String)
    (hpos : ∀ l, List.Perm (shufflePos l) l)
    (hdish : ∀ l, List.Perm (shuffleDish l) l) :
    ((r, c, s) ∈ (generate_dishes_and_preferences grid kitchenRows kitchenCols
        peoplePositions occupiedPositions choices shufflePos shuffleDish).2.2 →
      (generate_dishes_and_preferences grid kitchenRows kitchenCols
        peoplePositions occupiedPositions choices shufflePos shuffleDish).1
          r c = (if s = "vegan" then 'V' else 'N')) ∧
    ((r, c) ∉ ((generate_dishes_and_preferences grid kitchenRows kitchenCols
        peoplePositions occupiedPositions choices shufflePos
        shuffleDish).2.2.map (fun t => (t.1, t.2.1))) →
      (generate_dishes_and_preferences grid kitchenRows kitchenCols
        peoplePositions occupiedPositions choices shufflePos shuffleDish).1
          r c = grid r c) := by
  obtain ⟨hg, hl⟩ := generate_placed grid kitchenRows kitchenCols
    peoplePositions occupiedPositions choices shufflePos shuffleDish
  constructor
  · intro hmem
    rw [hl] at hmem
    rw [hg]
    have hnd : (shufflePos (validKitchenPositions grid kitchenRows kitchenCols
        occupiedPositions)).Nodup :=
      (hpos _).nodup_iff.mpr
        (validKitchenPositions_nodup grid kitchenRows kitchenCols
          occupiedPositions)
    have hds : ∀ x ∈ shuffleDish
        (List.replicate
            (((personPreferences peoplePositions.length choices).map
              Prod.snd).count "vegan") 'V' ++
          List.replicate
            (((personPreferences peoplePositions.length choices).map
              Prod.snd).count "non-vegetarian") 'N'),
        x = 'V' ∨ x = 'N' :=
      fun x hx => mem_dishes_to_place ((hdish _).mem_iff.mp hx)
    exact (placeLoop_placed _ _ grid hnd hds r c s hmem).1
  · intro hnot
    rw [hl] at hnot
    rw [hg]
    exact placeLoop_frame _ _ grid r c hnot

/-- Witness for C4 at the concrete run: the cell `(0,0)` receives 'V' for its
'vegan' entry, and the unplaced cell `(7,7)` keeps its original label. -/
theorem spec_C4_grid_frame_and_dish_chars_witness :
    (((0 : Nat), (0 : Nat), "vegan") ∈ (generate_dishes_and_preferences
        (fun _ _ => 'K') ⟨0, 2⟩ ⟨0, 1⟩ [(5, 5), (6, 6)] [] (fun _ => "vegan")
        id id).2.2 →
      (generate_dishes_and_preferences (fun _ _ => 'K') ⟨0, 2⟩ ⟨0, 1⟩
        [(5, 5), (6, 6)] [] (fun _ => "vegan") id id).1 0 0 =
        (if ("vegan" : String) = "vegan" then 'V' else 'N')) ∧
    (((0 : Nat), (0 : Nat)) ∉ ((generate_dishes_and_preferences
        (fun _ _ => 'K') ⟨0, 2⟩ ⟨0, 1⟩ [(5, 5), (6, 6)] [] (fun _ => "vegan")
        id id).2.2.map (fun t => (t.1, t.2.1))) →
      (generate_dishes_and_preferences (fun _ _ => 'K') ⟨0, 2⟩ ⟨0, 1⟩
        [(5, 5), (6, 6)] [] (fun _ => "vegan") id id).1 0 0 =
        (fun _ _ => 'K') 0 0) :=
  spec_C4_grid_frame_and_dish_chars (fun _ _ => 'K') ⟨0, 2⟩ ⟨0, 1⟩
    [(5, 5), (6, 6)] [] (fun _ => "vegan") id id 0 0 "vegan"
    (fun l => List.Perm.refl l) (fun l => List.Perm.refl l)

/-- C5: the coordinates in the returned dish placement list are pairwise
distinct, for every outcome of the shuffles. -/
theorem spec_C5_placements_distinct
    (grid : Nat → Nat → Char) (kitchenRows kitchenCols : SliceRange)
    (peoplePositions occupiedPositions : List (Nat × Nat))
    (choices : Nat → String)
    (shufflePos : List (Nat × Nat) → List (Nat × Nat))
    (shuffleDish : List Char → List Char)
    (hpos : ∀ l, List.Perm (shufflePos l) l) :
    ((generate_dishes_and_preferences grid kitchenRows kitchenCols
        peoplePositions occupiedPositions choices shufflePos
        shuffleDish).2.2.map (fun t => (t.1, t.2.1))).Nodup := by
  rw [(generate_placed grid kitchenRows kitchenCols peoplePositions
    occupiedPositions choices shufflePos shuffleDish).2, placeLoop_coords]
  exact (List.take_sublist _ _).nodup
    ((hpos _).nodup_iff.mpr
      (validKitchenPositions_nodup grid kitchenRows kitchenCols
        occupiedPositions))

/-- Witness for C5 at the concrete run. -/
theorem spec_C5_placements_distinct_witness :
    ((generate_dishes_and_preferences (fun _ _ => 'K') ⟨0, 2⟩ ⟨0, 1⟩
        [(5, 5), (6, 6)] [] (fun _ => "vegan") id id).2.2.map
        (fun t => (t.1, t.2.1))).Nodup :=
  spec_C5_placements_distinct (fun _ _ => 'K') ⟨0, 2⟩ ⟨0, 1⟩ [(5, 5), (6, 6)]
    [] (fun _ => "vegan") id id (fun l => List.Perm.refl l)

/-- C6: the number of 'vegan' entries in the dish placement list is at most
the number of 'vegan' values in the preference map, with equality whenever
the eligible-cell count `M` is at least the occupant count `N`; likewise for
'non-vegetarian'. -/
theorem spec_C6_category_counts
    (grid : Nat → Nat → Char) (kitchenRows kitchenCols : SliceRange)
    (peoplePositions occupiedPositions : List (Nat × Nat))
    (choices : Nat → String)
    (shufflePos : List (Nat × Nat) → List (Nat × Nat))
    (shuffleDish : List Char → List Char)
    (hch : ∀ k, choices k = "vegan" ∨ choices k = "non-vegetarian")
    (hpos : ∀ l, List.Perm (shufflePos l) l)
    (hdish : ∀ l, List.Perm (shuffleDish l) l) :
    (((generate_dishes_and_preferences grid kitchenRows kitchenCols
        peoplePositions occupiedPositions choices shufflePos
        shuffleDish).2.2.map (fun t => t.2.2)).count "vegan" ≤
      ((generate_dishes_and_preferences grid kitchenRows kitchenCols
        peoplePositions occupiedPositions choices shufflePos
        shuffleDish).2.1.map Prod.snd).count "vegan") ∧
    (((generate_dishes_and_preferences grid kitchenRows kitchenCols
        peoplePositions occupiedPositions choices shufflePos
        shuffleDish).2.2.map (fun t => t.2.2)).count "non-vegetarian" ≤
      ((generate_dishes_and_preferences grid kitchenRows kitchenCols
        peoplePositions occupiedPositions choices shufflePos
        shuffleDish).2.1.map Prod.snd).count "non-vegetarian") ∧
    (peoplePositions.length ≤
        (validKitchenPositions grid kitchenRows kitchenCols
          occupiedPositions).length →
      (((generate_dishes_and_preferences grid kitchenRows kitchenCols
          peoplePositions occupiedPositions choices shufflePos
          shuffleDish).2.2.map (fun t => t.2.2)).count "vegan" =
        ((generate_dishes_and_preferences grid kitchenRows kitchenCols
          peoplePositions occupiedPositions choices shufflePos
          shuffleDish).2.1.map Prod.snd).count "vegan") ∧
      (((generate_dishes_and_preferences grid kitchenRows kitchenCols
          peoplePositions occupiedPositions choices shufflePos
          shuffleDish).2.2.map (fun t => t.2.2)).count "non-vegetarian" =
        ((generate_dishes_and_preferences grid kitchenRows kitchenCols
          peoplePositions occupiedPositions choices shufflePos
          shuffleDish).2.1.map Prod.snd).count "non-vegetarian")) := by
  rw [generate_prefs,
    (generate_placed grid kitchenRows kitchenCols peoplePositions
      occupiedPositions choices shufflePos shuffleDish).2, placeLoop_names]
  have hfacts := take_count_facts
    (shuffleDish
      (List.replicate
          (((personPreferences peoplePositions.length choices).map
            Prod.snd).count "vegan") 'V' ++
        List.replicate
          (((personPreferences peoplePositions.length choices).map
            Prod.snd).count "non-vegetarian") 'N'))
    (((personPreferences peoplePositions.length choices).map
      Prod.snd).count "vegan")
    (((personPreferences peoplePositions.length choices).map
      Prod.snd).count "non-vegetarian")
    (shufflePos (validKitchenPositions grid kitchenRows kitchenCols
      occupiedPositions)).length
    (hdish _)
  refine ⟨hfacts.1, hfacts.2.1, fun hMN => hfacts.2.2 ?_⟩
  rw [(hpos _).length_eq,
    personPreferences_count_sum peoplePositions.length choices hch]
  exact hMN

/-- Witness for C6 at the concrete run (`M = N = 2`). -/
theorem spec_C6_category_counts_witness :
    (((generate_dishes_and_preferences (fun _ _ => 'K') ⟨0, 2⟩ ⟨0, 1⟩
        [(5, 5), (6, 6)] [] (fun _ => "vegan") id id).2.2.map
        (fun t => t.2.2)).count "vegan" ≤
      ((generate_dishes_and_preferences (fun _ _ => 'K') ⟨0, 2⟩ ⟨0, 1⟩
        [(5, 5), (6, 6)] [] (fun _ => "vegan") id id).2.1.map
        Prod.snd).count "vegan") ∧
    (((generate_dishes_and_preferences (fun _ _ => 'K') ⟨0, 2⟩ ⟨0, 1⟩
        [(5, 5), (6, 6)] [] (fun _ => "vegan") id id).2.2.map
        (fun t => t.2.2)).count "non-vegetarian" ≤
      ((generate_dishes_and_preferences (fun _ _ => 'K') ⟨0, 2⟩ ⟨0, 1⟩
        [(5, 5), (6, 6)] [] (fun _ => "vegan") id id).2.1.map
        Prod.snd).count "non-vegetarian") ∧
    (([(5, 5), (6, 6)] : List (Nat × Nat)).length ≤
        (validKitchenPositions (fun _ _ => 'K') ⟨0, 2⟩ ⟨0, 1⟩ []).length →
      (((generate_dishes_and_preferences (fun _ _ => 'K') ⟨0, 2⟩ ⟨0, 1⟩
          [(5, 5), (6, 6)] [] (fun _ => "vegan") id id).2.2.map
          (fun t => t.2.2)).count "vegan" =
        ((generate_dishes_and_preferences (fun _ _ => 'K') ⟨0, 2⟩ ⟨0, 1⟩
          [(5, 5), (6, 6)] [] (fun _ => "vegan") id id).2.1.map
          Prod.snd).count "vegan") ∧
      (((generate_dishes_and_preferences (fun _ _ => 'K') ⟨0, 2⟩ ⟨0, 1⟩
          [(5, 5), (6, 6)] [] (fun _ => "vegan") id id).2.2.map
          (fun t => t.2.2)).count "non-vegetarian" =
        ((generate_dishes_and_preferences (fun _ _ => 'K') ⟨0, 2⟩ ⟨0, 1⟩
          [(5, 5), (6, 6)] [] (fun _ => "vegan") id id).2.1.map
          Prod.snd).count "non-vegetarian")) :=
  spec_C6_category_counts (fun _ _ => 'K') ⟨0, 2⟩ ⟨0, 1⟩ [(5, 5), (6, 6)] []
    (fun _ => "vegan") id id (fun _ => Or.inl rfl)
    (fun l => List.Perm.refl l) (fun l => List.Perm.refl l)

/-- C7: the key list of the returned preference map is exactly `[1, ..., N]`
(so its key set is `{1, ..., N}`, each key occurring once), and each key maps
to one of the two labels. -/
theorem spec_C7_pref_map_keys
    (grid : Nat → Nat → Char) (kitchenRows kitchenCols : SliceRange)
    (peoplePositions occupiedPositions : List (Nat × Nat))
    (choices : Nat → String)
    (shufflePos : List (Nat × Nat) → List (Nat × Nat))
    (shuffleDish : List Char → List Char)
    (hch : ∀ k, choices k = "vegan" ∨ choices k = "non-vegetarian") :
    ((generate_dishes_and_preferences grid kitchenRows kitchenCols
        peoplePositions occupiedPositions choices shufflePos
        shuffleDish).2.1.map Prod.fst =
      List.range' 1 peoplePositions.length) ∧
    (∀ kv ∈ (generate_dishes_and_preferences grid kitchenRows kitchenCols
        peoplePositions occupiedPositions choices shufflePos shuffleDish).2.1,
      kv.2 = "vegan" ∨ kv.2 = "non-vegetarian") := by
  rw [generate_prefs]
  refine ⟨assignPrefsAux_map_fst peoplePositions.length choices
    peoplePositions.length, ?_⟩
  intro kv hkv
  exact assignPrefsAux_values peoplePositions.length choices hch
    peoplePositions.length kv.2 (List.mem_map_of_mem Prod.snd hkv)

/-- Witness for C7 at the concrete run. -/
theorem spec_C7_pref_map_keys_witness :
    ((generate_dishes_and_preferences (fun _ _ => 'K') ⟨0, 2⟩ ⟨0, 1⟩
        [(5, 5), (6, 6)] [] (fun _ => "vegan") id id).2.1.map Prod.fst =
      List.range' 1 ([(5, 5), (6, 6)] : List (Nat × Nat)).length) ∧
    (∀ kv ∈ (generate_dishes_and_preferences (fun _ _ => 'K') ⟨0, 2⟩ ⟨0, 1⟩
        [(5, 5), (6, 6)] [] (fun _ => "vegan") id id).2.1,
      kv.2 = "vegan" ∨ kv.2 = "non-vegetarian") :=
  spec_C7_pref_map_keys (fun _ _ => 'K') ⟨0, 2⟩ ⟨0, 1⟩ [(5, 5), (6, 6)] []
    (fun _ => "vegan") id id (fun _ => Or.inl rfl)

/-- C8 as stated is false: when `N = 1` the second-half balancing branch runs
with both running counts zero, the `remaining_vegan == 0` test fires first,
and person 1 is always assigned 'vegan' — 'non-vegetarian' is not a possible
outcome of any random-choice stream. -/
theorem spec_C8_counterexample_n1_forced_vegan :
    ¬ ∃ choices : Nat → String,
        "non-vegetarian" ∈ (personPreferences 1 choices).map Prod.snd := by
  rintro ⟨ch, h⟩
  rw [personPreferences_one] at h
  simp only [List.map_cons, List.map_nil, List.mem_singleton] at h
  exact absurd h (by decide)

/-- C8 amended: when `N = 1` the allocator deterministically assigns person 1
the label 'vegan' (the vegan-zero forcing branch fires), for every outcome of
the random choices; no balancing or random draw occurs. -/
theorem spec_C8_amended_n1_always_vegan (choices : Nat → String) :
    personPreferences 1 choices = [(1, "vegan")] :=
  personPreferences_one choices

/-- C9: `get_person_dietary_preference` returns the stored preference when
the person number is a key of the map (keys distinct), returns the sentinel
'unknown' when it is absent, and is a total function (never raises). -/
theorem spec_C9_lookup_default (person_preferences : List (Nat × String))
    (person_number : Nat) (v : String) :
    ((person_preferences.map Prod.fst).Nodup →
      (person_number, v) ∈ person_preferences →
      get_person_dietary_preference person_number person_preferences = v) ∧
    (person_number ∉ person_preferences.map Prod.fst →
      get_person_dietary_preference person_number person_preferences =
        "unknown") := by
  constructor
  · intro hnd hmem
    unfold get_person_dietary_preference
    rw [lookup_eq_some_of_mem hnd hmem]
    rfl
  · intro hnot
    unfold get_person_dietary_preference
    rw [lookup_eq_none_of_not_mem hnot]
    rfl

/-- Witness for C9: a present key returns its value, an absent key returns
'unknown'. -/
theorem spec_C9_lookup_default_witness :
    ((([( (1 : Nat), "vegan")] : List (Nat × String)).map Prod.fst).Nodup →
      ((1 : Nat), "vegan") ∈ ([(1, "vegan")] : List (Nat × String)) →
      get_person_dietary_preference 1 [(1, "vegan")] = "vegan") ∧
    ((1 : Nat) ∉ (([( (1 : Nat), "vegan")] : List (Nat × String)).map
        Prod.fst) →
      get_person_dietary_preference 1 [(1, "vegan")] = "unknown") :=
  spec_C9_lookup_default [(1, "vegan")] 1 "vegan"

/-- C10: for inputs whose labels all lie in the two categories (as produced
by `generate_dishes_and_preferences`), the summary partitions both inputs:
the two people counts sum to `total_people`, which is the number of map
entries, and the two dish counts sum to the placement-list length. -/
theorem spec_C10_summary_partitions (person_preferences : List (Nat × String))
    (dish_positions : List (Nat × Nat × String))
    (hp : ∀ kv ∈ person_preferences,
      kv.2 = "vegan" ∨ kv.2 = "non-vegetarian")
    (hd : ∀ t ∈ dish_positions, t.2.2 = "vegan" ∨ t.2.2 = "non-vegetarian") :
    (get_dish_assignment_summary person_preferences
        dish_positions).vegan_people_count +
      (get_dish_assignment_summary person_preferences
        dish_positions).non_vegetarian_people_count =
      (get_dish_assignment_summary person_preferences
        dish_positions).total_people ∧
    (get_dish_assignment_summary person_preferences
        dish_positions).total_people = person_preferences.length ∧
    (get_dish_assignment_summary person_preferences
        dish_positions).vegan_dishes_count +
      (get_dish_assignment_summary person_preferences
        dish_positions).non_vegetarian_dishes_count =
      dish_positions.length := by
  unfold get_dish_assignment_summary find_dishes_by_type
  dsimp only
  refine ⟨?_, rfl, ?_⟩
  · simp only [List.length_map]
    exact length_filter_pair person_preferences Prod.snd hp
  · simp only [List.length_map]
    exact length_filter_pair dish_positions (fun t => t.2.2) hd

/-- Witness for C10 on concrete inputs. -/
theorem spec_C10_summary_partitions_witness :
    (get_dish_assignment_summary [(1, "vegan"), (2, "non-vegetarian")]
        [(0, 0, "vegan")]).vegan_people_count +
      (get_dish_assignment_summary [(1, "vegan"), (2, "non-vegetarian")]
        [(0, 0, "vegan")]).non_vegetarian_people_count =
      (get_dish_assignment_summary [(1, "vegan"), (2, "non-vegetarian")]
        [(0, 0, "vegan")]).total_people ∧
    (get_dish_assignment_summary [(1, "vegan"), (2, "non-vegetarian")]
        [(0, 0, "vegan")]).total_people =
      ([(1, "vegan"), (2, "non-vegetarian")] : List (Nat × String)).length ∧
    (get_dish_assignment_summary [(1, "vegan"), (2, "non-vegetarian")]
        [(0, 0, "vegan")]).vegan_dishes_count +
      (get_dish_assignment_summary [(1, "vegan"), (2, "non-vegetarian")]
        [(0, 0, "vegan")]).non_vegetarian_dishes_count =
      ([(0, 0, "vegan")] : List (Nat × Nat × String)).length :=
  spec_C10_summary_partitions [(1, "vegan"), (2, "non-vegetarian")]
    [(0, 0, "vegan")] (by decide) (by decide)
